import Mathlib

/-!
Verification of the client-side generation-session controller of this
repository (src/frontend/script.js).  The script is a single-page UI
controller: a click on the generate button validates the inputs, optionally
uploads a PDF, opens a WebSocket, and the socket handlers
(onopen/onmessage/onclose/onerror) mutate DOM state.  We embed that state
and each handler as pure Lean functions, modelling side effects
(toasts shown, messages sent over the socket, upload attempts, channels
created/closed) as explicit fields of the state.

Conventions of the embedding:
- each DOM element the script mutates becomes a field of `ClientState`
  (`setControlsDisabled` sets every control in lockstep, so the individual
  `disabled` flags are collapsed into the single field `controlsDisabled`);
- `showToast text a b` is recorded as an appended `Toast`, where `a`/`b`
  record whether the `error`/`success` CSS class was added; the script's
  calls `showToast(msg, true)` pass the boolean `true`, which matches
  neither `type === 'error'` nor `type === 'success'`, so they record an
  unstyled toast;
- WebSocket channels get consecutive numeric ids; `openChannels` lists the
  ids created and not yet closed, and `socket` is the script's `socket`
  variable (which may still reference a closed channel);
- inbound payloads are either `invalid` (text `JSON.parse` throws on) or a
  `ProgressData` record of the fields the handler reads, each `Option`
  because JSON fields may be absent; JavaScript truthiness makes the
  handler skip string fields that are absent or empty.
-/

/-- One entry of `image_components`: `{path, description}`. -/
structure ImageComponent where
  path : String
  description : String
deriving DecidableEq, Repr

/-- A toast shown by `showToast(text, type)`: `styledError` / `styledSuccess`
record whether the `error` / `success` class was added (`type === 'error'`,
`type === 'success'`). -/
structure Toast where
  text : String
  styledError : Bool
  styledSuccess : Bool
deriving DecidableEq, Repr

/-- The fields of the `start` control message the script sends in `onopen`. -/
structure StartFields where
  topic : String
  url : String
  pdfPath : Option String
  quality : String
  voice : String
  theme : String
  model : String
deriving DecidableEq, Repr

/-- A message sent over the socket.  `script.js` only ever sends the `start`
message (its stop button closes the socket instead of sending `stop`); the
`stop` constructor exists because the spec and the older script variant name
such a message. -/
inductive OutMsg where
  | start (f : StartFields)
  | stop
deriving DecidableEq, Repr

/-- The mutable page state the script drives, plus explicit effect logs. -/
structure ClientState where
  /-- id to use for the next `new WebSocket`. -/
  nextChannel : Nat
  /-- channels created and not yet closed. -/
  openChannels : List Nat
  /-- the script's `socket` variable (`none` before the first session). -/
  socket : Option Nat
  /-- every control set by `setControlsDisabled` (they move in lockstep). -/
  controlsDisabled : Bool
  /-- whether `generateBtn` carries the `loading` class. -/
  generateLoading : Bool
  /-- whether `.output-section` carries the `hidden` class. -/
  outputSectionHidden : Bool
  /-- whether `.status-overlay` carries the `hidden` class. -/
  statusOverlayHidden : Bool
  /-- `outputLog.textContent`. -/
  outputLog : String
  /-- `statusText.textContent`. -/
  statusText : String
  /-- `scriptOutput.textContent`. -/
  scriptOutput : String
  /-- `narrationOutput.textContent`. -/
  narrationOutput : String
  /-- `animationOutput.innerHTML`. -/
  animationOutput : String
  /-- the image cards rendered inside `imageComponentsOutput`. -/
  imageComponents : List ImageComponent
  /-- whether `audioPlayerContainer` carries the `hidden` class. -/
  audioHidden : Bool
  /-- whether `downloadScriptBtn` carries the `hidden` class. -/
  downloadScriptHidden : Bool
  /-- whether `downloadNarrationBtn` carries the `hidden` class. -/
  downloadNarrationHidden : Bool
  /-- log of toasts shown, oldest first. -/
  toasts : List Toast
  /-- log of messages sent over any socket, oldest first. -/
  sent : List OutMsg
  /-- number of `/upload-pdf` requests issued. -/
  uploadsAttempted : Nat
deriving DecidableEq, Repr

/-- Record a `showToast` call. -/
def pushToast (s : ClientState) (text : String) (styledError styledSuccess : Bool) :
    ClientState :=
  { s with toasts := s.toasts ++ [⟨text, styledError, styledSuccess⟩] }

/-- Embeds `setControlsDisabled(disabled)` (script.js lines 71-81): every
input control gets the same `disabled` flag and the stop/generate buttons
swap visibility, so the whole call is one field update. -/
def setControls (s : ClientState) (disabled : Bool) : ClientState :=
  { s with controlsDisabled := disabled }

/-- Embeds `clearOutputs()` (script.js lines 83-92). -/
def clearOutputs (s : ClientState) : ClientState :=
  { s with outputLog := "", scriptOutput := "", narrationOutput := "",
           animationOutput := "", imageComponents := [],
           audioHidden := true, downloadScriptHidden := true,
           downloadNarrationHidden := true }

/-- A parsed inbound event: the fields `socket.onmessage` reads.  Absent
JSON fields are `none`.  (`tts_audio_url` may arrive but the current script
never reads it.) -/
structure ProgressData where
  status : Option String := none
  stage : Option String := none
  message : Option String := none
  script : Option String := none
  narration : Option String := none
  output_file : Option String := none
  tts_audio_url : Option String := none
  image_components : Option (List ImageComponent) := none
deriving DecidableEq, Repr

/-- A raw inbound payload: `invalid` is text on which `JSON.parse` throws;
any successfully parsed value is read through its (possibly absent) fields,
so it is a `ProgressData`. -/
inductive RawPayload where
  | invalid
  | value (d : ProgressData)
deriving DecidableEq, Repr

/-- Whitespace removed by JavaScript `String.prototype.trim` (the common
ASCII part: space, tab, newline, carriage return, vertical tab, form
feed). -/
def isJsWhitespace (c : Char) : Bool :=
  c = ' ' || c = '\t' || c = '\n' || c = '\x0d' || c = '\x0b' || c = '\x0c'

/-- Embeds JavaScript `String.prototype.trim`: strip leading and trailing
whitespace. -/
def jsTrim (s : String) : String :=
  ⟨((s.data.dropWhile isJsWhitespace).reverse.dropWhile isJsWhitespace).reverse⟩

/-- JavaScript truthiness of an optional string field (`undefined` and `""`
are falsy). -/
def truthy : Option String → Bool
  | some t => t != ""
  | none => false

/-- Embeds the template `data.stage ? `[...] ` : ''` of script.js line 153
(an empty `stage` is falsy). -/
def stageTag : Option String → String
  | some st => if st = "" then "" else "[" ++ st ++ "] "
  | none => ""

/-- Rendering of `data.message` by string interpolation (an absent field
prints as `undefined`). -/
def msgText (d : ProgressData) : String :=
  match d.message with
  | some m => m
  | none => "undefined"

/-- Embeds script.js lines 152-165: the log/status-text block run for any of
the three recognised statuses, with the extra toasts for `error` status and
`Cancelled` stage.  `showToast(data.message, true)` passes `true`, which is
not the string `error`, so the toast is unstyled. -/
def applyLog (s : ClientState) (d : ProgressData) : ClientState :=
  if d.status = some "progress" ∨ d.status = some "error" ∨ d.status = some "completed" then
    let line := stageTag d.stage ++ msgText d ++ "\n"
    let s1 := { s with outputLog := s.outputLog ++ line, statusText := msgText d }
    let s2 := if d.status = some "error" then pushToast s1 (msgText d) false false else s1
    if d.stage = some "Cancelled" then
      pushToast s2 "Animation generation stopped." false false
    else s2
  else s

/-- Embeds script.js lines 167-176: on a terminal status the controls are
re-enabled and the loading class removed; on `completed` the status overlay
is hidden and, when an `output_file` is present, a success toast shown.
Note the block never touches the socket. -/
def applyTerminal (s : ClientState) (d : ProgressData) : ClientState :=
  if d.status = some "error" ∨ d.status = some "completed" then
    let s1 := { setControls s false with generateLoading := false }
    if d.status = some "completed" then
      let s2 := { s1 with statusOverlayHidden := true }
      if truthy d.output_file then
        pushToast s2 "Animation generated successfully!" false false
      else s2
    else s1
  else s

/-- Embeds script.js lines 178-181 (`if (data.narration) ...`). -/
def applyNarration (s : ClientState) (d : ProgressData) : ClientState :=
  match d.narration with
  | some t =>
    if t = "" then s
    else { s with narrationOutput := t, downloadNarrationHidden := false }
  | none => s

/-- Embeds script.js lines 182-185 (`if (data.script) ...`). -/
def applyScript (s : ClientState) (d : ProgressData) : ClientState :=
  match d.script with
  | some t =>
    if t = "" then s
    else { s with scriptOutput := t, downloadScriptHidden := false }
  | none => s

/-- Embeds script.js lines 186-190: render the video element and hide the
separate audio player. -/
def applyOutputFile (s : ClientState) (d : ProgressData) : ClientState :=
  match d.output_file with
  | some f =>
    if f = "" then s
    else { s with
      animationOutput :=
        "<video controls src=\"" ++ f ++ "\" type=\"video/mp4\"></video>",
      audioHidden := true }
  | none => s

/-- Embeds script.js lines 191-208: the rendered image list is rebuilt from
scratch from the event (full replace; an array is always truthy). -/
def applyImages (s : ClientState) (d : ProgressData) : ClientState :=
  match d.image_components with
  | some l => { s with imageComponents := l }
  | none => s

/-- Embeds `socket.onmessage` (script.js lines 148-209) on an already parsed
event: the five statement blocks in source order. -/
def onMessage (s : ClientState) (d : ProgressData) : ClientState :=
  applyImages
    (applyOutputFile (applyScript (applyNarration (applyTerminal (applyLog s d) d) d) d) d) d

/-- Result of running `socket.onmessage` on a raw payload: the new state and
whether an exception escaped the handler. -/
structure MsgResult where
  state : ClientState
  fault : Bool
deriving DecidableEq, Repr

/-- Embeds `socket.onmessage` on the raw payload.  The handler's first
statement is `JSON.parse(event.data)` with no surrounding try/catch, so on
an unparseable payload the exception escapes the handler uncaught before
any state is touched (`fault := true`); the socket itself is unaffected. -/
def onMessageRaw (s : ClientState) (raw : RawPayload) : MsgResult :=
  match raw with
  | .invalid => { state := s, fault := true }
  | .value d => { state := onMessage s d, fault := false }

/-- Deliver a list of parsed events to `onMessage` in arrival order. -/
def runMsgs (s : ClientState) (ds : List ProgressData) : ClientState :=
  ds.foldl onMessage s

/-- Embeds `socket.onopen` (script.js lines 142-146) with the fields the
click handler closed over: a toast, then the single `start` message. -/
def onOpen (s : ClientState) (f : StartFields) : ClientState :=
  let s1 := pushToast s "Connection established. Starting generation..." false false
  { s1 with sent := s1.sent ++ [OutMsg.start f] }

/-- Embeds `socket.onclose` (script.js lines 211-215): controls re-enabled,
loading removed, nothing else — in particular no message of any kind. -/
def onClose (s : ClientState) : ClientState :=
  { setControls s false with generateLoading := false }

/-- Embeds `socket.onerror` (script.js lines 217-222): an (unstyled, since
the second argument is `true`, not the string `error`) connectivity toast,
then controls re-enabled and loading removed. -/
def onError (s : ClientState) : ClientState :=
  let s1 := pushToast s "A connection error occurred. Please check the server logs." false false
  { setControls s1 false with generateLoading := false }

/-- Embeds the stop-button click handler (script.js lines 225-230):
`if (socket) { socket.close(); showToast('Stopping generation...'); }`.
Closing an already closed channel is a no-op (hence `List.erase`); no
message is sent. -/
def stopClick (s : ClientState) : ClientState :=
  match s.socket with
  | none => s
  | some c =>
    pushToast { s with openChannels := s.openChannels.erase c }
      "Stopping generation..." false false

/-- The inputs the generate-button click handler reads. -/
structure StartReq where
  topicRaw : String
  urlRaw : String
  /-- `pdfInput.files[0]` — presence of a selected file. -/
  pdfFile : Option Unit
  quality : String
  voice : String
  theme : String
  model : String
deriving DecidableEq, Repr

/-- The upload collaborator's answer to `POST /upload-pdf`: `ok path` for a
2xx response with `{path}`, `err detail` for a non-ok response whose JSON
body may carry a `detail` field. -/
inductive UploadResp where
  | ok (path : String)
  | err (detail : Option String)
deriving DecidableEq, Repr

/-- The message of the thrown `Error(result.detail || 'PDF upload failed.')`:
an absent or empty (falsy) detail falls back to the fixed text. -/
def uploadErrText : Option String → String
  | some t => if t = "" then "PDF upload failed." else t
  | none => "PDF upload failed."

/-- How a generate click ended. -/
inductive StartOutcome where
  | validationError
  | uploadError (msg : String)
  | started (f : StartFields)
deriving DecidableEq, Repr

/-- Embeds script.js lines 127-145, the part of the click handler after
validation and upload succeed: read the selects, disable controls, add the
loading class, show the output section and overlay, clear outputs, then
assign `socket = new WebSocket(...)`.  The previous value of `socket` is
overwritten without being closed. -/
def openPhase (s : ClientState) (req : StartReq) (pdfPath : Option String) :
    StartOutcome × ClientState :=
  let f : StartFields :=
    { topic := jsTrim req.topicRaw, url := jsTrim req.urlRaw, pdfPath := pdfPath,
      quality := req.quality, voice := req.voice, theme := req.theme,
      model := req.model }
  let s1 := { setControls s true with
    generateLoading := true,
    outputSectionHidden := false,
    statusOverlayHidden := false }
  let s2 := clearOutputs s1
  let s3 := { s2 with
    socket := some s2.nextChannel,
    openChannels := s2.openChannels ++ [s2.nextChannel],
    nextChannel := s2.nextChannel + 1 }
  (.started f, s3)

/-- Embeds the generate-button click handler (script.js lines 94-223).
`u` is the upload collaborator's response, consulted only when a PDF file is
selected.  Validation failure and upload failure return before any control
or socket state is touched. -/
def generateClick (s : ClientState) (req : StartReq) (u : UploadResp) :
    StartOutcome × ClientState :=
  if jsTrim req.topicRaw = "" ∧ jsTrim req.urlRaw = "" ∧ req.pdfFile = none then
    (.validationError,
      pushToast s "Please enter a topic, a URL, or select a PDF file." true false)
  else
    match req.pdfFile with
    | some _ =>
      let s1 := { s with uploadsAttempted := s.uploadsAttempted + 1 }
      match u with
      | .ok p => openPhase (pushToast s1 "PDF uploaded successfully!" false true) req (some p)
      | .err d =>
        (.uploadError (uploadErrText d), pushToast s1 (uploadErrText d) true false)
    | none => openPhase s req none

/-- The spec's `Session.status` enumeration (spec section 3). -/
inductive SessionStatus where
  | Idle
  | Connecting
  | Running
  | Completed
  | Errored
  | Cancelled
deriving DecidableEq, Repr

/-- Status abstraction following the spec's words, named apart from the
source functions: the script keeps no status variable, so the session
status is read off the state the page displays.  While the controls are
disabled a session is in flight (Running); once they re-enable, a hidden
busy overlay is the completed display and a still-visible overlay the
errored display.  The page cannot display Idle, Connecting or Cancelled
distinctly from these three. -/
def displayedStatus (s : ClientState) : SessionStatus :=
  if s.controlsDisabled then .Running
  else if s.statusOverlayHidden then .Completed
  else .Errored

/-! Concrete fixtures: one reachable trace of the controller, used by the
witnesses and counterexamples below.  `sIdle` is a page with no session
(socket never assigned); the trace starts a session for topic
`derivatives`, receives the open event, then server events. -/

/-- A page state with no session started. -/
def sIdle : ClientState :=
  { nextChannel := 0, openChannels := [], socket := none,
    controlsDisabled := false, generateLoading := false,
    outputSectionHidden := true, statusOverlayHidden := true,
    outputLog := "", statusText := "", scriptOutput := "",
    narrationOutput := "", animationOutput := "", imageComponents := [],
    audioHidden := true, downloadScriptHidden := true,
    downloadNarrationHidden := true, toasts := [], sent := [],
    uploadsAttempted := 0 }

/-- A valid request: a topic, no URL, no PDF. -/
def reqA : StartReq :=
  { topicRaw := "derivatives", urlRaw := "", pdfFile := none,
    quality := "720p", voice := "achernar", theme := "3blue1brown",
    model := "gemini" }

/-- The fields the click handler for `reqA` closes over. -/
def fieldsA : StartFields :=
  { topic := "derivatives", url := "", pdfPath := none,
    quality := "720p", voice := "achernar", theme := "3blue1brown",
    model := "gemini" }

/-- State right after the generate click for `reqA` (upload response unused
because no PDF is selected). -/
def s1Start : ClientState := (generateClick sIdle reqA (.ok "unused")).2

/-- State right after `socket.onopen` fired: the Running state of the
sample session, channel 0 open. -/
def s2Run : ClientState := onOpen s1Start fieldsA

/-- A non-terminal progress event. -/
def pProg : ProgressData :=
  { status := some "progress", stage := some "Scripting",
    message := some "Writing narration" }

/-- A terminal completed event carrying the output file. -/
def tDone : ProgressData :=
  { status := some "completed", message := some "Done",
    output_file := some "/media/out.mp4" }

/-- A terminal error event. -/
def tErr : ProgressData :=
  { status := some "error", message := some "render failed" }

example : (generateClick sIdle reqA (.ok "unused")).1 = .started fieldsA := by decide
example : s2Run.controlsDisabled = true := by decide
example : s2Run.statusOverlayHidden = false := by decide
example : s2Run.openChannels = [0] := by decide
example : s2Run.socket = some 0 := by decide
example : s2Run.sent = [OutMsg.start fieldsA] := by decide
example : displayedStatus (runMsgs s2Run [pProg, tDone]) = .Completed := by decide
example : displayedStatus (runMsgs s2Run [pProg, tErr]) = .Errored := by decide

/-! Helper lemmas about the `onmessage` stages. -/

/-- The log block never touches controls, overlay, loading or the socket. -/
theorem applyLog_preserves (s : ClientState) (d : ProgressData) :
    (applyLog s d).controlsDisabled = s.controlsDisabled ∧
    (applyLog s d).statusOverlayHidden = s.statusOverlayHidden ∧
    (applyLog s d).generateLoading = s.generateLoading ∧
    (applyLog s d).openChannels = s.openChannels ∧
    (applyLog s d).socket = s.socket := by
  by_cases c1 : d.status = some "progress" ∨ d.status = some "error" ∨ d.status = some "completed" <;>
  by_cases c2 : d.status = some "error" <;>
  by_cases c3 : d.stage = some "Cancelled" <;>
  simp [applyLog, pushToast, c1, c2, c3] <;> (repeat' split) <;> (first | rfl | simp_all)

/-- On a recognised status the log block appends the rendered line. -/
theorem applyLog_out (s : ClientState) (d : ProgressData)
    (h : d.status = some "progress" ∨ d.status = some "error" ∨ d.status = some "completed") :
    (applyLog s d).outputLog = s.outputLog ++ (stageTag d.stage ++ msgText d ++ "\n") := by
  by_cases c2 : d.status = some "error" <;>
  by_cases c3 : d.stage = some "Cancelled" <;>
  simp [applyLog, pushToast, h, c2, c3] <;> (repeat' split) <;> (first | rfl | simp_all)

/-- The terminal block never touches the socket, channels or the log. -/
theorem applyTerminal_preserves (s : ClientState) (d : ProgressData) :
    (applyTerminal s d).openChannels = s.openChannels ∧
    (applyTerminal s d).socket = s.socket ∧
    (applyTerminal s d).outputLog = s.outputLog := by
  by_cases c1 : d.status = some "error" ∨ d.status = some "completed" <;>
  by_cases c2 : d.status = some "completed" <;>
  by_cases c3 : truthy d.output_file = true <;>
  simp [applyTerminal, pushToast, setControls, c1, c2, c3] <;> (repeat' split) <;> (first | rfl | simp_all)

/-- A `progress` status skips the terminal block entirely. -/
theorem applyTerminal_progress (s : ClientState) (d : ProgressData)
    (h : d.status = some "progress") :
    applyTerminal s d = s := by
  have : ¬ (d.status = some "error" ∨ d.status = some "completed") := by
    rw [h]; simp
  simp [applyTerminal, this]

/-- On a terminal status the controls are re-enabled, the loading class
removed, and the overlay hidden exactly on `completed`. -/
theorem applyTerminal_terminal (s : ClientState) (d : ProgressData)
    (h : d.status = some "error" ∨ d.status = some "completed") :
    (applyTerminal s d).controlsDisabled = false ∧
    (applyTerminal s d).generateLoading = false ∧
    (applyTerminal s d).statusOverlayHidden =
      (if d.status = some "completed" then true else s.statusOverlayHidden) := by
  by_cases c2 : d.status = some "completed" <;>
  by_cases c3 : truthy d.output_file = true <;>
  simp [applyTerminal, pushToast, setControls, h, c2, c3] <;> (repeat' split) <;> (first | rfl | simp_all)

/-- The narration block touches only the narration slot and its button. -/
theorem applyNarration_preserves (s : ClientState) (d : ProgressData) :
    (applyNarration s d).controlsDisabled = s.controlsDisabled ∧
    (applyNarration s d).statusOverlayHidden = s.statusOverlayHidden ∧
    (applyNarration s d).generateLoading = s.generateLoading ∧
    (applyNarration s d).openChannels = s.openChannels ∧
    (applyNarration s d).socket = s.socket ∧
    (applyNarration s d).outputLog = s.outputLog := by
  cases hn : d.narration with
  | none => simp [applyNarration, hn]
  | some t => by_cases ht : t = "" <;> simp [applyNarration, hn, ht]

/-- The script block touches only the script slot and its button. -/
theorem applyScript_preserves (s : ClientState) (d : ProgressData) :
    (applyScript s d).controlsDisabled = s.controlsDisabled ∧
    (applyScript s d).statusOverlayHidden = s.statusOverlayHidden ∧
    (applyScript s d).generateLoading = s.generateLoading ∧
    (applyScript s d).openChannels = s.openChannels ∧
    (applyScript s d).socket = s.socket ∧
    (applyScript s d).outputLog = s.outputLog := by
  cases hn : d.script with
  | none => simp [applyScript, hn]
  | some t => by_cases ht : t = "" <;> simp [applyScript, hn, ht]

/-- The output-file block touches only the video slot and the audio
container. -/
theorem applyOutputFile_preserves (s : ClientState) (d : ProgressData) :
    (applyOutputFile s d).controlsDisabled = s.controlsDisabled ∧
    (applyOutputFile s d).statusOverlayHidden = s.statusOverlayHidden ∧
    (applyOutputFile s d).generateLoading = s.generateLoading ∧
    (applyOutputFile s d).openChannels = s.openChannels ∧
    (applyOutputFile s d).socket = s.socket ∧
    (applyOutputFile s d).outputLog = s.outputLog := by
  cases hn : d.output_file with
  | none => simp [applyOutputFile, hn]
  | some t => by_cases ht : t = "" <;> simp [applyOutputFile, hn, ht]

/-- The image block touches only the image list. -/
theorem applyImages_preserves (s : ClientState) (d : ProgressData) :
    (applyImages s d).controlsDisabled = s.controlsDisabled ∧
    (applyImages s d).statusOverlayHidden = s.statusOverlayHidden ∧
    (applyImages s d).generateLoading = s.generateLoading ∧
    (applyImages s d).openChannels = s.openChannels ∧
    (applyImages s d).socket = s.socket ∧
    (applyImages s d).outputLog = s.outputLog := by
  cases hn : d.image_components with
  | none => simp [applyImages, hn]
  | some l => simp [applyImages, hn]

/-- The whole message handler never touches the socket or the open
channels: script.js line 148-209 contains no `socket.close()`. -/
theorem onMessage_channels (s : ClientState) (d : ProgressData) :
    (onMessage s d).openChannels = s.openChannels ∧
    (onMessage s d).socket = s.socket := by
  unfold onMessage
  obtain ⟨_, _, _, l4, l5⟩ := applyLog_preserves s d
  obtain ⟨c1, c2, _⟩ := applyTerminal_preserves (applyLog s d) d
  obtain ⟨_, _, _, n4, n5, _⟩ :=
    applyNarration_preserves (applyTerminal (applyLog s d) d) d
  obtain ⟨_, _, _, p4, p5, _⟩ :=
    applyScript_preserves (applyNarration (applyTerminal (applyLog s d) d) d) d
  obtain ⟨_, _, _, o4, o5, _⟩ :=
    applyOutputFile_preserves
      (applyScript (applyNarration (applyTerminal (applyLog s d) d) d) d) d
  obtain ⟨_, _, _, i4, i5, _⟩ :=
    applyImages_preserves
      (applyOutputFile (applyScript (applyNarration (applyTerminal (applyLog s d) d) d) d) d) d
  exact ⟨by simp_all, by simp_all⟩

/-- A `progress` event leaves the controls, the overlay and the loading
class untouched. -/
theorem onMessage_progress_preserves (s : ClientState) (d : ProgressData)
    (h : d.status = some "progress") :
    (onMessage s d).controlsDisabled = s.controlsDisabled ∧
    (onMessage s d).statusOverlayHidden = s.statusOverlayHidden := by
  unfold onMessage
  rw [applyTerminal_progress (applyLog s d) d h]
  obtain ⟨l1, l2, _, _, _⟩ := applyLog_preserves s d
  obtain ⟨n1, n2, _, _, _, _⟩ := applyNarration_preserves (applyLog s d) d
  obtain ⟨p1, p2, _, _, _, _⟩ :=
    applyScript_preserves (applyNarration (applyLog s d) d) d
  obtain ⟨o1, o2, _, _, _, _⟩ :=
    applyOutputFile_preserves (applyScript (applyNarration (applyLog s d) d) d) d
  obtain ⟨i1, i2, _, _, _, _⟩ :=
    applyImages_preserves
      (applyOutputFile (applyScript (applyNarration (applyLog s d) d) d) d) d
  exact ⟨by simp_all, by simp_all⟩

/-- A terminal event re-enables the controls, drops the loading class,
hides the overlay exactly on `completed`, appends its log line, and leaves
the socket and channels untouched. -/
theorem onMessage_terminal_core (s : ClientState) (t : ProgressData)
    (ht : t.status = some "error" ∨ t.status = some "completed") :
    (onMessage s t).controlsDisabled = false ∧
    (onMessage s t).generateLoading = false ∧
    (onMessage s t).statusOverlayHidden =
      (if t.status = some "completed" then true else s.statusOverlayHidden) ∧
    (onMessage s t).openChannels = s.openChannels ∧
    (onMessage s t).socket = s.socket ∧
    (onMessage s t).outputLog = s.outputLog ++ (stageTag t.stage ++ msgText t ++ "\n") := by
  unfold onMessage
  obtain ⟨l1, l2, l3, l4, l5⟩ := applyLog_preserves s t
  have lout := applyLog_out s t
    (by rcases ht with h | h
        · exact Or.inr (Or.inl h)
        · exact Or.inr (Or.inr h))
  obtain ⟨t1, t2, t3⟩ := applyTerminal_terminal (applyLog s t) t ht
  obtain ⟨c1, c2, c3⟩ := applyTerminal_preserves (applyLog s t) t
  obtain ⟨n1, n2, n3, n4, n5, n6⟩ :=
    applyNarration_preserves (applyTerminal (applyLog s t) t) t
  obtain ⟨p1, p2, p3, p4, p5, p6⟩ :=
    applyScript_preserves (applyNarration (applyTerminal (applyLog s t) t) t) t
  obtain ⟨o1, o2, o3, o4, o5, o6⟩ :=
    applyOutputFile_preserves
      (applyScript (applyNarration (applyTerminal (applyLog s t) t) t) t) t
  obtain ⟨i1, i2, i3, i4, i5, i6⟩ :=
    applyImages_preserves
      (applyOutputFile (applyScript (applyNarration (applyTerminal (applyLog s t) t) t) t) t) t
  refine ⟨?_, ?_, ?_, ?_, ?_, ?_⟩ <;> simp_all

/-- Delivering only `progress` events preserves controls and overlay. -/
theorem runMsgs_progress_preserves (ps : List ProgressData) :
    ∀ s : ClientState, (∀ p ∈ ps, p.status = some "progress") →
      (runMsgs s ps).controlsDisabled = s.controlsDisabled ∧
      (runMsgs s ps).statusOverlayHidden = s.statusOverlayHidden := by
  induction ps with
  | nil => intro s _; exact ⟨rfl, rfl⟩
  | cons p ps ih =>
    intro s h
    have hp := h p (List.mem_cons_self p ps)
    have hrest : ∀ q ∈ ps, q.status = some "progress" :=
      fun q hq => h q (List.mem_cons_of_mem p hq)
    have h1 := onMessage_progress_preserves s p hp
    have h2 := ih (onMessage s p) hrest
    simp only [runMsgs, List.foldl_cons] at h2 ⊢
    exact ⟨h2.1.trans h1.1, h2.2.trans h1.2⟩

/-- Splitting a delivery at its last event. -/
theorem runMsgs_append_last (s : ClientState) (ps : List ProgressData)
    (t : ProgressData) :
    runMsgs s (ps ++ [t]) = onMessage (runMsgs s ps) t := by
  simp [runMsgs, List.foldl_append]

/-- State reached by every generate click that proceeds past validation and
upload: controls disabled, loading on, output section and overlay shown,
every artifact slot cleared, and a fresh channel appended to the open ones
(the previous `socket` value is merely overwritten, never closed). -/
theorem generateClick_started_state (s : ClientState) (req : StartReq) (u : UploadResp)
    (h : ∃ f, (generateClick s req u).1 = StartOutcome.started f) :
    (generateClick s req u).2.outputLog = "" ∧
    (generateClick s req u).2.scriptOutput = "" ∧
    (generateClick s req u).2.narrationOutput = "" ∧
    (generateClick s req u).2.animationOutput = "" ∧
    (generateClick s req u).2.imageComponents = [] ∧
    (generateClick s req u).2.audioHidden = true ∧
    (generateClick s req u).2.downloadScriptHidden = true ∧
    (generateClick s req u).2.downloadNarrationHidden = true ∧
    (generateClick s req u).2.socket = some s.nextChannel ∧
    (generateClick s req u).2.openChannels = s.openChannels ++ [s.nextChannel] ∧
    (generateClick s req u).2.controlsDisabled = true ∧
    (generateClick s req u).2.generateLoading = true ∧
    (generateClick s req u).2.statusOverlayHidden = false ∧
    (generateClick s req u).2.outputSectionHidden = false := by
  rcases h with ⟨f, hf⟩
  by_cases hv : jsTrim req.topicRaw = "" ∧ jsTrim req.urlRaw = "" ∧ req.pdfFile = none
  · simp [generateClick, hv] at hf
  · cases hp : req.pdfFile with
    | none =>
      have hv2 : ¬(jsTrim req.topicRaw = "" ∧ jsTrim req.urlRaw = "") := by
        intro h2
        exact hv ⟨h2.1, h2.2, hp⟩
      simp [generateClick, hv2, hp, openPhase, clearOutputs, setControls, pushToast]
    | some _ =>
      cases u with
      | ok p =>
        simp [generateClick, hv, hp, openPhase, clearOutputs, setControls, pushToast]
      | err dl =>
        simp [generateClick, hv, hp] at hf

/-! Further fixtures for witnesses and counterexamples. -/

/-- A request whose trimmed inputs are all empty. -/
def reqEmpty : StartReq :=
  { topicRaw := " ", urlRaw := "", pdfFile := none,
    quality := "720p", voice := "achernar", theme := "3blue1brown",
    model := "gemini" }

/-- A request consisting only of a selected PDF file. -/
def reqPdf : StartReq :=
  { topicRaw := "", urlRaw := "", pdfFile := some (),
    quality := "720p", voice := "achernar", theme := "3blue1brown",
    model := "gemini" }

/-- The sample session after a `completed` message: controls re-enabled,
channel 0 still open. -/
def s3Done : ClientState := onMessage s2Run tDone

/-- The sample session after an `error` message. -/
def s3Err : ClientState := onMessage s2Run tErr

/-! The claims. -/

/-- C1: for every startSession request in which topic (after trimming),
sourceUrl (after trimming), and pdfFile are all empty, startSession fails
with a ValidationError (a user-visible error-styled toast) and no channel
is opened and no state is changed: the socket, open channels, controls,
upload count and sent messages are untouched. -/
theorem claim1_validation_blocks_start (s : ClientState) (req : StartReq) (u : UploadResp)
    (h1 : jsTrim req.topicRaw = "") (h2 : jsTrim req.urlRaw = "")
    (h3 : req.pdfFile = none) :
    (generateClick s req u).1 = StartOutcome.validationError ∧
    (generateClick s req u).2.toasts =
      s.toasts ++ [⟨"Please enter a topic, a URL, or select a PDF file.", true, false⟩] ∧
    (generateClick s req u).2.socket = s.socket ∧
    (generateClick s req u).2.openChannels = s.openChannels ∧
    (generateClick s req u).2.controlsDisabled = s.controlsDisabled ∧
    (generateClick s req u).2.uploadsAttempted = s.uploadsAttempted ∧
    (generateClick s req u).2.sent = s.sent := by
  simp [generateClick, h1, h2, h3, pushToast]

/-- Witness for C1 at a concrete whitespace-only request. -/
theorem claim1_witness :
    (generateClick sIdle reqEmpty (.ok "x")).1 = StartOutcome.validationError ∧
    (generateClick sIdle reqEmpty (.ok "x")).2.uploadsAttempted = sIdle.uploadsAttempted := by
  have h := claim1_validation_blocks_start sIdle reqEmpty (.ok "x")
    (by decide) (by decide) rfl
  exact ⟨h.1, h.2.2.2.2.2.1⟩

/-- C2: for every sequence of valid inbound events, delivered from the
Running state the click handler leaves the page in, that ends in exactly
one terminal event, the displayed session status is Completed for a
`completed` terminal and Errored for an `error` terminal, regardless of
the preceding `progress` events. -/
theorem claim2_final_status_matches_terminal (s0 : ClientState)
    (ps : List ProgressData) (t : ProgressData)
    (hC : s0.controlsDisabled = true) (hO : s0.statusOverlayHidden = false)
    (hps : ∀ p ∈ ps, p.status = some "progress")
    (ht : t.status = some "completed" ∨ t.status = some "error") :
    displayedStatus (runMsgs s0 (ps ++ [t])) =
      (if t.status = some "completed" then SessionStatus.Completed
       else SessionStatus.Errored) := by
  rw [runMsgs_append_last]
  obtain ⟨hc, ho⟩ := runMsgs_progress_preserves ps s0 hps
  obtain ⟨a1, a2, a3, _, _, _⟩ := onMessage_terminal_core (runMsgs s0 ps) t ht.symm
  simp only [displayedStatus, a1, a3, ho, hO]
  by_cases hcm : t.status = some "completed" <;> simp [hcm]

/-- Witness for C2: one progress event then a completed event. -/
theorem claim2_witness :
    displayedStatus (runMsgs s2Run ([pProg] ++ [tDone])) = SessionStatus.Completed := by
  have h := claim2_final_status_matches_terminal s2Run [pProg] tDone
    (by decide) (by decide)
    (by intro p hp
        rcases List.mem_singleton.mp hp with rfl
        decide)
    (Or.inl (by decide))
  simpa [tDone] using h

/-- Counterexample to C3 as stated: after the sample session processes the
`completed` event, channel 0 — the channel the event arrived on — is still
open and still referenced; `socket.onmessage` contains no `socket.close()`,
so the controller does not close the channel. -/
theorem claim3_counterexample :
    tDone.status = some "completed" ∧
    (onMessage s2Run tDone).openChannels = [0] ∧
    (onMessage s2Run tDone).socket = some 0 := by decide

/-- C3 (amended): on a `completed`/`error` event the displayed status
becomes Completed respectively Errored (controls re-enabled; overlay hidden
exactly on completed), but the controller does not close the channel: the
open channels and the socket reference are unchanged; closure is left to
the server side. -/
theorem claim3_terminal_no_close (s : ClientState) (t : ProgressData)
    (ht : t.status = some "completed" ∨ t.status = some "error")
    (hO : s.statusOverlayHidden = false) :
    (onMessage s t).openChannels = s.openChannels ∧
    (onMessage s t).socket = s.socket ∧
    (onMessage s t).controlsDisabled = false ∧
    displayedStatus (onMessage s t) =
      (if t.status = some "completed" then SessionStatus.Completed
       else SessionStatus.Errored) := by
  obtain ⟨a1, a2, a3, a4, a5, a6⟩ := onMessage_terminal_core s t ht.symm
  refine ⟨a4, a5, a1, ?_⟩
  simp only [displayedStatus, a1, a3, hO]
  by_cases hcm : t.status = some "completed" <;> simp [hcm]

/-- Witness for C3 (amended) at the sample session. -/
theorem claim3_witness :
    (onMessage s2Run tDone).openChannels = s2Run.openChannels ∧
    (onMessage s2Run tDone).controlsDisabled = false := by
  have h := claim3_terminal_no_close s2Run tDone (Or.inl (by decide)) (by decide)
  exact ⟨h.1, h.2.2.1⟩

/-- Counterexample to C4 as stated: clicking stop on the running sample
session closes the channel but sends no `stop` control message — the sent
log still holds only the `start` message. -/
theorem claim4_counterexample :
    s2Run.socket = some 0 ∧
    (stopClick s2Run).sent = [OutMsg.start fieldsA] ∧
    OutMsg.stop ∉ (stopClick s2Run).sent := by decide

/-- C4 (amended): cancelSession never sends a `stop` control message; when
a socket reference exists it closes that channel and shows a stopping
notice, and when no socket was ever created it is a no-op. -/
theorem claim4_stop_closes_without_stop_message (s : ClientState) :
    (stopClick s).sent = s.sent ∧
    (s.socket = none → stopClick s = s) ∧
    (∀ c : Nat, s.socket = some c →
      (stopClick s).openChannels = s.openChannels.erase c ∧
      (stopClick s).toasts = s.toasts ++ [⟨"Stopping generation...", false, false⟩]) := by
  cases hs : s.socket with
  | none => simp [stopClick, hs]
  | some c => simp [stopClick, hs, pushToast]

/-- Witness for C4 (amended) at the running sample session. -/
theorem claim4_witness :
    (stopClick s2Run).sent = s2Run.sent ∧ (stopClick s2Run).openChannels = [] := by
  have h := claim4_stop_closes_without_stop_message s2Run
  have h2 := (h.2.2 0 (by decide)).1
  exact ⟨h.1, by rw [h2]; decide⟩

/-- Counterexample to C5 as stated: after the sample session completes, the
server-side close never happened, so channel 0 is still open; a second
generate click then opens channel 1 without closing channel 0 — two
channels are open at once. -/
theorem claim5_counterexample :
    s3Done.openChannels = [0] ∧
    s3Done.controlsDisabled = false ∧
    (generateClick s3Done reqA (.ok "u")).2.openChannels = [0, 1] := by decide

/-- C5 (amended): a generate click that proceeds past validation and upload
does not close any previously open channel: it appends a fresh channel to
the open ones and merely overwrites the socket reference, so the
at-most-one-open-transport invariant is not enforced by startSession. -/
theorem claim5_prior_channel_not_closed (s : ClientState) (req : StartReq)
    (u : UploadResp)
    (h : ∃ f, (generateClick s req u).1 = StartOutcome.started f) :
    (generateClick s req u).2.openChannels = s.openChannels ++ [s.nextChannel] ∧
    (generateClick s req u).2.socket = some s.nextChannel := by
  obtain ⟨_, _, _, _, _, _, _, _, o9, o10, _⟩ := generateClick_started_state s req u h
  exact ⟨o10, o9⟩

/-- Witness for C5 (amended) at the idle page. -/
theorem claim5_witness :
    (generateClick sIdle reqA (.ok "u")).2.openChannels =
      sIdle.openChannels ++ [sIdle.nextChannel] := by
  exact (claim5_prior_channel_not_closed sIdle reqA (.ok "u") ⟨fieldsA, by decide⟩).1

/-- Counterexample to C6 as stated: a malformed payload delivered to the
running sample session makes the parse exception escape the handler
(`fault = true` — an unhandled fault), and no ProtocolError is reported:
the toast log is unchanged. -/
theorem claim6_counterexample :
    (onMessageRaw s2Run RawPayload.invalid).fault = true ∧
    (onMessageRaw s2Run RawPayload.invalid).state.toasts = s2Run.toasts := by decide

/-- C6 (amended): on a malformed payload `JSON.parse` throws before any
state is touched and the exception escapes the handler uncaught (there is
no try/catch and no ProtocolError report); the channel is not closed and
the session state is unchanged, but the fault does propagate out of the
handler. -/
theorem claim6_malformed_uncaught (s : ClientState) :
    onMessageRaw s RawPayload.invalid = { state := s, fault := true } := rfl

/-- Counterexample to C7 as stated: after the sample session ends in an
`error`, a late `completed` event is not ignored — it appends its message
to the log and flips the displayed status from Errored to Completed. -/
theorem claim7_counterexample :
    displayedStatus s3Err = SessionStatus.Errored ∧
    displayedStatus (onMessage s3Err tDone) = SessionStatus.Completed ∧
    (onMessage s3Err tDone).outputLog ≠ s3Err.outputLog := by decide

/-- C7 (amended): a second terminal event is reprocessed like the first,
not ignored: its message is appended to the output log; the controls do
stay re-enabled (re-disabling is idempotent) and, because the handler
never closes the channel, no duplicate close is attempted at all. -/
theorem claim7_second_terminal_reprocessed (s : ClientState) (t : ProgressData)
    (ht : t.status = some "completed" ∨ t.status = some "error")
    (hC : s.controlsDisabled = false) :
    (onMessage s t).outputLog = s.outputLog ++ (stageTag t.stage ++ msgText t ++ "\n") ∧
    (onMessage s t).controlsDisabled = false ∧
    (onMessage s t).openChannels = s.openChannels ∧
    (onMessage s t).socket = s.socket := by
  obtain ⟨a1, _, _, a4, a5, a6⟩ := onMessage_terminal_core s t ht.symm
  exact ⟨a6, a1, a4, a5⟩

/-- Witness for C7 (amended): a duplicate `completed` after the first. -/
theorem claim7_witness :
    (onMessage s3Done tDone).outputLog =
      s3Done.outputLog ++ (stageTag tDone.stage ++ msgText tDone ++ "\n") := by
  exact (claim7_second_terminal_reprocessed s3Done tDone (Or.inl (by decide)) (by decide)).1

/-- Counterexample to C8 as stated: a channel-closed event delivered to the
running (non-terminal) sample session re-enables the controls but shows no
message at all — the toast log is unchanged, so no generic connectivity
message accompanies the transition. -/
theorem claim8_counterexample :
    s2Run.controlsDisabled = true ∧
    displayedStatus s2Run = SessionStatus.Running ∧
    (onClose s2Run).toasts = s2Run.toasts := by decide

/-- C8 (amended): a channel-error event shows a generic connectivity
message and re-enables the controls; a channel-closed event re-enables the
controls silently (no message).  In both cases, when the overlay was still
visible (no completed display), the page ends re-armable in the Errored
display. -/
theorem claim8_channel_fault_rearms (s : ClientState) :
    (onError s).toasts =
      s.toasts ++ [⟨"A connection error occurred. Please check the server logs.", false, false⟩] ∧
    (onError s).controlsDisabled = false ∧
    (onError s).generateLoading = false ∧
    (onClose s).toasts = s.toasts ∧
    (onClose s).controlsDisabled = false ∧
    (onClose s).generateLoading = false ∧
    (s.statusOverlayHidden = false →
      displayedStatus (onError s) = SessionStatus.Errored ∧
      displayedStatus (onClose s) = SessionStatus.Errored) := by
  refine ⟨rfl, rfl, rfl, rfl, rfl, rfl, fun h => ?_⟩
  constructor <;> simp [displayedStatus, onError, onClose, setControls, pushToast, h]

/-- Witness for C8 (amended) at the running sample session. -/
theorem claim8_witness :
    displayedStatus (onClose s2Run) = SessionStatus.Errored := by
  exact ((claim8_channel_fault_rearms s2Run).2.2.2.2.2.2 (by decide)).2

/-- C9: for every startSession request with a pdfFile present whose scoped
upload fails with a (nonempty, human-readable) error detail, the session
never starts: the outcome is an UploadError carrying the detail verbatim,
the detail is shown as an error-styled toast, no channel is opened (socket
and open channels unchanged) and the controls remain enabled. -/
theorem claim9_upload_failure_blocks_start (s : ClientState) (req : StartReq)
    (dl : String) (hpdf : req.pdfFile = some ()) (hdl : dl ≠ "")
    (hC : s.controlsDisabled = false) :
    (generateClick s req (.err (some dl))).1 = StartOutcome.uploadError dl ∧
    (generateClick s req (.err (some dl))).2.toasts = s.toasts ++ [⟨dl, true, false⟩] ∧
    (generateClick s req (.err (some dl))).2.socket = s.socket ∧
    (generateClick s req (.err (some dl))).2.openChannels = s.openChannels ∧
    (generateClick s req (.err (some dl))).2.controlsDisabled = false := by
  have hv : ¬(jsTrim req.topicRaw = "" ∧ jsTrim req.urlRaw = "" ∧ req.pdfFile = none) := by
    simp [hpdf]
  simp [generateClick, hv, hpdf, uploadErrText, hdl, pushToast, hC]

/-- Witness for C9: the spec scenario with detail `too large`. -/
theorem claim9_witness :
    (generateClick sIdle reqPdf (.err (some "too large"))).1 =
      StartOutcome.uploadError "too large" ∧
    (generateClick sIdle reqPdf (.err (some "too large"))).2.controlsDisabled = false := by
  have h := claim9_upload_failure_blocks_start sIdle reqPdf "too large"
    rfl (by decide) rfl
  exact ⟨h.1, h.2.2.2.2⟩

/-- C10: every generate click that proceeds past validation and upload
resets all displayed artifact slots — output log, script, narration,
animation output, image-component list, audio player, and both download
buttons — to empty or hidden before it opens the fresh channel, so no
artifact of a prior session is visible when the new session's first event
is processed (in the source, `clearOutputs()` at line 137 precedes
`new WebSocket` at line 140). -/
theorem claim10_outputs_cleared_before_open (s : ClientState) (req : StartReq)
    (u : UploadResp)
    (h : ∃ f, (generateClick s req u).1 = StartOutcome.started f) :
    (generateClick s req u).2.outputLog = "" ∧
    (generateClick s req u).2.scriptOutput = "" ∧
    (generateClick s req u).2.narrationOutput = "" ∧
    (generateClick s req u).2.animationOutput = "" ∧
    (generateClick s req u).2.imageComponents = [] ∧
    (generateClick s req u).2.audioHidden = true ∧
    (generateClick s req u).2.downloadScriptHidden = true ∧
    (generateClick s req u).2.downloadNarrationHidden = true ∧
    (generateClick s req u).2.socket = some s.nextChannel := by
  obtain ⟨o1, o2, o3, o4, o5, o6, o7, o8, o9, _⟩ := generateClick_started_state s req u h
  exact ⟨o1, o2, o3, o4, o5, o6, o7, o8, o9⟩

/-- Witness for C10: a second session started from the completed sample
session, whose slots hold the first session's artifacts. -/
theorem claim10_witness :
    (generateClick s3Done reqA (.ok "u")).2.animationOutput = "" ∧
    (generateClick s3Done reqA (.ok "u")).2.socket = some s3Done.nextChannel := by
  have h := claim10_outputs_cleared_before_open s3Done reqA (.ok "u")
    ⟨fieldsA, by decide⟩
  exact ⟨h.2.2.2.1, h.2.2.2.2.2.2.2.2⟩
